import Mathlib

/-!
Verification of the SMCL order-retrieval automation engine
(`src/scraping/smcl_scraper.py` and `src/services/scraping/smcl_scraper.py`)
against its natural-language specification.

The Python code is shallowly embedded: the browser, the page DOM and the
download directory are modelled as explicit environment values, every
method that the claims mention becomes a Lean function over those values,
and Python exceptions become explicit result constructors.
-/

namespace SMCL

/-! ## Element locator: `_find_first` (src/scraping/smcl_scraper.py, lines 510-523)

`_find_first(xpaths, timeout)` tries each XPath in the given order with its own
bounded `WebDriverWait(self.driver, timeout)`.  A strategy either resolves an
element handle within the timeout or raises (`TimeoutException` or other); the
method remembers the last exception, re-raises it after the loop, and falls
through to `return None` only when the XPath list is empty.

The environment is a function `resolve : String → Option Nat`: `some h` means
the bounded wait for that XPath resolves element handle `h` within its timeout,
`none` means the wait raises.  The per-strategy timeout is the same value for
every strategy (the single `timeout` parameter), so it is folded into
`resolve`. -/

/-- Outcome of a call to `_find_first`: an element handle, a re-raised
exception (identified by the XPath whose wait raised it, since `last_error`
is the exception of the last failed strategy), or the `None` fall-through. -/
inductive FindRes where
  | handle (h : Nat)
  | raised (xp : String)
  | nofind
  deriving DecidableEq, Repr

/-- The `for xp in xpaths` loop of `_find_first`, carrying `last_error`.
Besides the outcome it returns the list of XPaths whose wait was actually
started, in order. -/
def findFirstAux (resolve : String → Option Nat) (lastErr : Option String) :
    List String → FindRes × List String
  | [] =>
    (match lastErr with
     | some xp => FindRes.raised xp
     | none => FindRes.nofind, [])
  | xp :: rest =>
    match resolve xp with
    | some h => (FindRes.handle h, [xp])
    | none =>
      let r := findFirstAux resolve (some xp) rest
      (r.1, xp :: r.2)

/-- `_find_first(xpaths, timeout)` with `last_error` initially `None`. -/
def findFirst (resolve : String → Option Nat) (xpaths : List String) :
    FindRes × List String :=
  findFirstAux resolve none xpaths

/-! ## Multi-strategy click helper: `_try_click_with_xpaths`
(src/scraping/smcl_scraper.py, lines 606-620)

Tries each XPath with its own bounded clickable-wait; the first XPath whose
element resolves is scrolled into view and clicked and the method returns
`True`; any exception from a strategy is swallowed and the next strategy is
tried; `False` is returned when every strategy failed. -/
def tryClickWithXpaths (resolve : String → Option Nat) : List String → Bool × List String
  | [] => (false, [])
  | xp :: rest =>
    match resolve xp with
    | some _ => (true, [xp])
    | none =>
      let r := tryClickWithXpaths resolve rest
      (r.1, xp :: r.2)

/-! ## Download completion detector
(`_snapshot_existing_csv`, `_wait_for_new_csv`;
src/scraping/smcl_scraper.py, lines 579-604)

The download directory is observed through a sequence of polls: one `Poll` is
the directory listing at one iteration of the `while time.time() < end` loop
(one entry per file, in listing order), and the bounded timeout is modelled by
the poll sequence being finite. -/

/-- One file as seen by a directory poll: its name and the `stat` data the
code reads (`st_mtime` for the sort, `st_size` for the stability check). -/
structure FileObs where
  name : String
  mtime : Nat
  size : Nat
  deriving DecidableEq, Repr

/-- One poll of the download directory: the files present, in listing order. -/
abbrev Poll := List FileObs

/-- The glob pattern `受注伝票_*.csv` used by `_wait_for_new_csv`: the name
starts with `受注伝票_` and ends with `.csv`. -/
def isOrderCsv (n : String) : Bool :=
  "受注伝票_".toList.isPrefixOf n.toList && ".csv".toList.reverse.isPrefixOf n.toList.reverse

/-- The glob pattern `*.csv` used by `_snapshot_existing_csv`. -/
def isAnyCsv (n : String) : Bool :=
  ".csv".toList.reverse.isPrefixOf n.toList.reverse

/-- `_snapshot_existing_csv`: the set of `*.csv` file names present in the
download directory before the download is triggered. -/
def snapshotExistingCsv (poll : Poll) : List String :=
  (poll.filter (fun f => isAnyCsv f.name)).map (fun f => f.name)

/-- The candidate list of one poll: files matching `受注伝票_*.csv` whose name
is not in the snapshot (`if p.name not in before`). -/
def candidatesOf (before : List String) (poll : Poll) : List FileObs :=
  poll.filter (fun f => isOrderCsv f.name && !(decide (f.name ∈ before)))

/-- `candidates.sort(key=lambda p: p.stat().st_mtime, reverse=True)` followed by
`candidates[0]`: Python's sort is stable, so the chosen file is the first one
in listing order among those with maximal mtime. -/
def pickNewest (c : FileObs) (cs : List FileObs) : FileObs :=
  cs.foldl (fun acc f => if acc.mtime < f.mtime then f else acc) c

/-- The newest candidate of one poll together with its observed size, or
`none` when the poll has no candidate (`if candidates:` is false). -/
def obsOf (before : List String) (poll : Poll) : Option (String × Nat) :=
  match candidatesOf before poll with
  | [] => none
  | c :: cs => some ((pickNewest c cs).name, (pickNewest c cs).size)

/-- The polling loop of `_wait_for_new_csv`, carrying `(last_path, last_size)`
(`none` initially; Python's `if last_path and path == last_path and
last_size == size: return path`).  The loop returns the path (its name) once
the newest candidate of a poll equals the remembered one with unchanged size,
otherwise remembers the current observation and sleeps until the next poll;
`None` is returned when the timeout (end of the poll sequence) is reached. -/
def waitLoop (before : List String) :
    Option (String × Nat) → List Poll → Option String
  | _, [] => none
  | last, poll :: rest =>
    match obsOf before poll with
    | none => waitLoop before last rest
    | some (n, s) =>
      match last with
      | some (lp, ls) =>
        if n = lp ∧ s = ls then some n
        else waitLoop before (some (n, s)) rest
      | none => waitLoop before (some (n, s)) rest

/-- `_wait_for_new_csv(before, timeout)` over a poll trace. -/
def waitForNewCsv (before : List String) (polls : List Poll) : Option String :=
  waitLoop before none polls

/-- The observation sequence of a poll trace: the `(name, size)` of the newest
candidate at each poll that has a candidate, in poll order. -/
def obsSeq (before : List String) (polls : List Poll) : List (String × Nat) :=
  polls.filterMap (obsOf before)

/-- `waitLoop` restricted to the candidate-bearing polls: the loop state only
changes at polls with a candidate, so this is the same computation. -/
def simpleLoop : Option (String × Nat) → List (String × Nat) → Option String
  | _, [] => none
  | none, o :: rest => simpleLoop (some o) rest
  | some (lp, ls), (n, s) :: rest =>
    if n = lp ∧ s = ls then some n else simpleLoop (some (n, s)) rest

/-! ## Relocation of the stable artifact
(`click_download_all_details`, src/scraping/smcl_scraper.py, lines 695-710)

After `_wait_for_new_csv` returns a path, the code runs
`dest_dir = Path(self.download_dir) / dest_subdir`, `dest_dir.mkdir(exist_ok=True)`,
`dest = dest_dir / csv_path.name` and then
`try: csv_path.replace(dest) ... except Exception: # 同名がある場合はそのまま`.

The directory tree is modelled flat: a list of `(absolute path, content)`
pairs.  `mkdir(exist_ok=True)` does not change that map. -/

/-- A flat file system: absolute path to file content. -/
abbrev FS := List (String × String)

/-- Look a path up in the file system. -/
def fsLookup (fs : FS) (p : String) : Option String :=
  (fs.find? (fun e => e.1 == p)).map (fun e => e.2)

/-- `Path.replace` / `os.replace` semantics: the source file is renamed to the
destination path, and an existing file at the destination is silently and
unconditionally replaced (POSIX `rename`; `os.replace` behaves the same on
Windows).  It fails (raises `OSError`, here `none`) only when the source is
missing. A name collision at the destination does NOT make it fail. -/
def pathReplace (fs : FS) (src dst : String) : Option FS :=
  match fsLookup fs src with
  | none => none
  | some content =>
    some ((fs.filter (fun e => e.1 != src && e.1 != dst)) ++ [(dst, content)])

/-- The relocation step of `click_download_all_details`: move the stable
artifact `name` from the download directory into the destination subdirectory;
if `Path.replace` raises, the except-branch keeps the file where it is. -/
def moveArtifact (fs : FS) (downloadDir destSub name : String) : FS :=
  let src := downloadDir ++ "/" ++ name
  let dst := downloadDir ++ "/" ++ destSub ++ "/" ++ name
  match pathReplace fs src dst with
  | some fs2 => fs2
  | none => fs

/-! ## Terminal-condition detector
(`check_no_data_message`, src/services/scraping/smcl_scraper.py, lines 509-527)

`find_element(By.ID, "ctl00_messageArea_RepeatMessage_ctl00_messageLabel")`
either returns the message-area control or raises `NoSuchElementException`;
the page state is therefore `Option (List Char)`: the control's `.text` when
the control is present, `none` when it is absent.  The caught
`NoSuchElementException` branch returns `False`, and the generic
`except Exception` branch also returns `False`, so the function never
propagates an exception. -/

/-- The sentinel phrase 「該当するデータがありません」. -/
def noDataPhrase : List Char := "該当するデータがありません".toList

/-- Python `str.strip()`: drop whitespace from both ends. -/
def stripChars (s : List Char) : List Char :=
  ((s.dropWhile Char.isWhitespace).reverse.dropWhile Char.isWhitespace).reverse

/-- `check_no_data_message`: `message_element.text.strip()` followed by
`"該当するデータがありません" in message_text`; `False` when the control is
absent. -/
def checkNoDataMessage (msg : Option (List Char)) : Bool :=
  match msg with
  | none => false
  | some t => decide (noDataPhrase <:+: stripChars t)

/-! ## Per-round order-row enumeration
(`_get_available_order_links`, src/services/scraping/smcl_scraper.py,
lines 653-683)

`for i in range(2, 20)` probes the element id
`f"ctl00_ContentPlaceHolder1_GridView1_ctl0{i}_ImpDateLinkButton"`;
a found element is collected when `is_displayed() and is_enabled()`,
`NoSuchElementException` breaks the loop, any other exception continues. -/

/-- Outcome of `find_element(By.ID, id)` for one probed id. -/
inductive ProbeRes where
  | found (displayed enabled : Bool)
  | missing
  | err
  deriving DecidableEq, Repr

/-- The probed id template `f"ctl00_ContentPlaceHolder1_GridView1_ctl0{i}_ImpDateLinkButton"`.
Note the literal `0` before the interpolated `{i}`: for `i = 10` this yields
`...ctl010...`, not `...ctl10...`. -/
def linkIdOf (i : Nat) : String :=
  "ctl00_ContentPlaceHolder1_GridView1_ctl0" ++ Nat.repr i ++ "_ImpDateLinkButton"

/-- The probe loop of `_get_available_order_links` over the remaining values
of `i`. -/
def probeLoop (page : String → ProbeRes) : List Nat → List String
  | [] => []
  | i :: rest =>
    match page (linkIdOf i) with
    | ProbeRes.found d e =>
      (if d && e then [linkIdOf i] else []) ++ probeLoop page rest
    | ProbeRes.missing => []
    | ProbeRes.err => probeLoop page rest

/-- `_get_available_order_links`: probe `i = 2, ..., 19` (`range(2, 20)`). -/
def getAvailableOrderLinks (page : String → ProbeRes) : List String :=
  probeLoop page (List.range' 2 18)

/-- Modelled from the environment (ASP.NET WebForms id generation, which the
site's pages follow as witnessed by the concrete ids in the source, e.g.
`..._GridView1_ctl02_...`): a GridView renders its j-th data row (1-based)
with the child id `ctl{j+1}` where the number is zero-padded to at least two
digits — row 1 is `ctl02`, row 8 is `ctl09`, row 9 is `ctl10`. -/
def pad2 (n : Nat) : String :=
  if n < 10 then "0" ++ Nat.repr n else Nat.repr n

/-- The real element id of the j-th (1-based) order row of the listing grid. -/
def gridRowId (j : Nat) : String :=
  "ctl00_ContentPlaceHolder1_GridView1_ctl" ++ pad2 (j + 1) ++ "_ImpDateLinkButton"

/-- A fully rendered listing page with `k` order rows: the row link ids
`gridRowId 1 .. gridRowId k` are present, displayed and enabled; every other
id is missing. -/
def realPage (k : Nat) (s : String) : ProbeRes :=
  if (List.range' 1 k).any (fun j => gridRowId j == s) then ProbeRes.found true true
  else ProbeRes.missing

/-! ## The engine main loop
(`download_delivery_lists`, src/services/scraping/smcl_scraper.py,
lines 529-635, together with `setup_driver`, `navigate_to_order_list_and_search`,
`check_no_data_message`, `download_csv`, `_get_available_order_links`,
`process_order_details_and_download`, `_navigate_back_to_order_list` and
`cleanup`)

The environment fixes, per processing round `r` (the value of `attempt`), the
outcome of every driver interaction.  A phase call either returns a value or
raises something its own internal handler does not swallow; the latter is the
`exn` constructor and is what the engine-level `except Exception` / `finally`
pair deals with. -/

/-- Result of one Python call: a returned value or a propagating exception. -/
inductive Res (α : Type) where
  | val (a : α)
  | exn
  deriving DecidableEq, Repr

/-- The environment of one engine run. `search r` is the driver outcome of
`navigate_to_order_list_and_search` in round `r` (`val false` = its internal
timeout/exception handler returned `False` before the sentinel check was
reached); `msg r` is the message-area control state of the listing page shown
in round `r` (consulted both by the sentinel check inside
`navigate_to_order_list_and_search`, which sets `self.no_data_found`, and by
the `check_no_data_message` call in the loop); `links r` is the result of
`_get_available_order_links`; `process r l` is
`process_order_details_and_download(target_link_id=l)` (`none` = the default
first-row link of the production branch). -/
structure Env where
  setup : Res Bool
  access : Res Bool
  login : Res Bool
  selectUser : Res Bool
  search : Nat → Res Bool
  msg : Nat → Option (List Char)
  csvDownload : Res Bool
  links : Nat → Res (List String)
  process : Nat → Option String → Res Bool
  navBack : Nat → Res Bool
  testMode : Bool

/-- How the body of `download_delivery_lists` (the code inside `try:`) exits:
a `return b` statement, or an exception propagating to the
`except`/`finally`. -/
inductive BodyExit where
  | ret (b : Bool)
  | exn
  deriving DecidableEq, Repr

/-- How the `while attempt < max_attempts` loop exits: a `return True` inside
the loop, a `break`, the `while` condition turning false, or an exception. -/
inductive LoopExit where
  | retTrue
  | broke
  | exhausted
  | exn
  deriving DecidableEq, Repr

/-- `max_attempts = 50  # 安全のための最大試行回数`. -/
def maxAttempts : Nat := 50

/-- State observed when the loop stops: how it exited, the final value of
`attempt` (= rounds executed), the elements of `processed_orders` in insertion
order, and `self.no_data_found`. -/
structure LoopOut where
  exit : LoopExit
  rounds : Nat
  processed : List String
  flag : Bool
  deriving DecidableEq, Repr

/-- One execution of the `while attempt < max_attempts:` loop of
`download_delivery_lists`, from a given `attempt` value; `fuel` is
`max_attempts - attempt`, so the `while` condition `attempt < max_attempts`
is re-checked before every round.  Each round: `attempt += 1`;
`navigate_to_order_list_and_search` (on success it sets `self.no_data_found`
from the sentinel check of the freshly rendered listing, on failure `break`);
`check_no_data_message` (`return True` when the sentinel is present);
`download_csv()` on round 1 (result ignored); then the test-mode branch
(enumerate links, `return True` if none, process the first link not in
`processed_orders` — one per round — count consecutive no-new-data rounds and
`return True` at 3) or the production branch (`process_order_details_and_download()`,
`break` on failure); then the test-mode 10-order cap; then `time.sleep(3)`. -/
def loop (env : Env) : Nat → Nat → List String → Nat → Bool → LoopOut
  | 0, attempt, processed, _, flag =>
    ⟨LoopExit.exhausted, attempt, processed, flag⟩
  | fuel + 1, attempt, processed, cnt, flag =>
    match env.search (attempt + 1) with
    | Res.exn => ⟨LoopExit.exn, attempt + 1, processed, flag⟩
    | Res.val false => ⟨LoopExit.broke, attempt + 1, processed, flag⟩
    | Res.val true =>
      if checkNoDataMessage (env.msg (attempt + 1)) then
        ⟨LoopExit.retTrue, attempt + 1, processed,
          checkNoDataMessage (env.msg (attempt + 1))⟩
      else
        match (if attempt + 1 = 1 then env.csvDownload else Res.val true) with
        | Res.exn =>
          ⟨LoopExit.exn, attempt + 1, processed, checkNoDataMessage (env.msg (attempt + 1))⟩
        | Res.val _ =>
          if env.testMode then
            match env.links (attempt + 1) with
            | Res.exn =>
              ⟨LoopExit.exn, attempt + 1, processed,
                checkNoDataMessage (env.msg (attempt + 1))⟩
            | Res.val available =>
              if available.isEmpty then
                ⟨LoopExit.retTrue, attempt + 1, processed,
                  checkNoDataMessage (env.msg (attempt + 1))⟩
              else
                match available.find? (fun l => !(decide (l ∈ processed))) with
                | some l =>
                  match env.process (attempt + 1) (some l) with
                  | Res.exn =>
                    ⟨LoopExit.exn, attempt + 1, processed,
                      checkNoDataMessage (env.msg (attempt + 1))⟩
                  | Res.val true =>
                    match env.navBack (attempt + 1) with
                    | Res.exn =>
                      ⟨LoopExit.exn, attempt + 1, processed ++ [l],
                        checkNoDataMessage (env.msg (attempt + 1))⟩
                    | Res.val _ =>
                      if 10 ≤ (processed ++ [l]).length then
                        ⟨LoopExit.retTrue, attempt + 1, processed ++ [l],
                          checkNoDataMessage (env.msg (attempt + 1))⟩
                      else
                        loop env fuel (attempt + 1) (processed ++ [l]) 0
                          (checkNoDataMessage (env.msg (attempt + 1)))
                  | Res.val false =>
                    if 3 ≤ cnt + 1 then
                      ⟨LoopExit.retTrue, attempt + 1, processed,
                        checkNoDataMessage (env.msg (attempt + 1))⟩
                    else if 10 ≤ processed.length then
                      ⟨LoopExit.retTrue, attempt + 1, processed,
                        checkNoDataMessage (env.msg (attempt + 1))⟩
                    else
                      loop env fuel (attempt + 1) processed (cnt + 1)
                        (checkNoDataMessage (env.msg (attempt + 1)))
                | none =>
                  if 3 ≤ cnt + 1 then
                    ⟨LoopExit.retTrue, attempt + 1, processed,
                      checkNoDataMessage (env.msg (attempt + 1))⟩
                  else if 10 ≤ processed.length then
                    ⟨LoopExit.retTrue, attempt + 1, processed,
                      checkNoDataMessage (env.msg (attempt + 1))⟩
                  else
                    loop env fuel (attempt + 1) processed (cnt + 1)
                      (checkNoDataMessage (env.msg (attempt + 1)))
          else
            match env.process (attempt + 1) none with
            | Res.exn =>
              ⟨LoopExit.exn, attempt + 1, processed,
                checkNoDataMessage (env.msg (attempt + 1))⟩
            | Res.val false =>
              ⟨LoopExit.broke, attempt + 1, processed,
                checkNoDataMessage (env.msg (attempt + 1))⟩
            | Res.val true =>
              loop env fuel (attempt + 1) processed cnt
                (checkNoDataMessage (env.msg (attempt + 1)))

/-- The body of `download_delivery_lists` inside the `try:`: driver setup,
site access, login, user selection (each `return False` on failure), then the
processing loop, then the post-loop `return False` (reached both after a
`break` and after the round limit). -/
def runBody (env : Env) : BodyExit × LoopOut :=
  match env.setup with
  | Res.exn => (BodyExit.exn, ⟨LoopExit.broke, 0, [], false⟩)
  | Res.val false => (BodyExit.ret false, ⟨LoopExit.broke, 0, [], false⟩)
  | Res.val true =>
    match env.access with
    | Res.exn => (BodyExit.exn, ⟨LoopExit.broke, 0, [], false⟩)
    | Res.val false => (BodyExit.ret false, ⟨LoopExit.broke, 0, [], false⟩)
    | Res.val true =>
      match env.login with
      | Res.exn => (BodyExit.exn, ⟨LoopExit.broke, 0, [], false⟩)
      | Res.val false => (BodyExit.ret false, ⟨LoopExit.broke, 0, [], false⟩)
      | Res.val true =>
        match env.selectUser with
        | Res.exn => (BodyExit.exn, ⟨LoopExit.broke, 0, [], false⟩)
        | Res.val false => (BodyExit.ret false, ⟨LoopExit.broke, 0, [], false⟩)
        | Res.val true =>
          let o := loop env maxAttempts 0 [] 0 false
          match o.exit with
          | LoopExit.retTrue => (BodyExit.ret true, o)
          | LoopExit.broke => (BodyExit.ret false, o)
          | LoopExit.exhausted => (BodyExit.ret false, o)
          | LoopExit.exn => (BodyExit.exn, o)

/-- The session teardown state: whether `self.driver` is still set, how often
the `cleanup` method body ran, and how often `self.driver.quit()` was
attempted. -/
structure Sess where
  driver : Bool
  cleanupCalls : Nat
  quitCalls : Nat
  deriving DecidableEq, Repr

/-- `cleanup` (src/services/scraping/smcl_scraper.py, lines 752-762):
`if self.driver:` wait the 2-second grace delay, `try: self.driver.quit()`
with every teardown exception caught and logged, `finally: self.driver = None`.
The function is total — it never propagates an exception — and with
`self.driver` already `None` it does nothing but return. -/
def cleanup (s : Sess) : Sess :=
  if s.driver then
    ⟨false, s.cleanupCalls + 1, s.quitCalls + 1⟩
  else
    ⟨s.driver, s.cleanupCalls + 1, s.quitCalls⟩

/-- `self.driver` is assigned (a live driver exists) exactly when
`setup_driver` returned `True`. -/
def driverAssigned : Res Bool → Bool
  | Res.val true => true
  | _ => false

/-- Everything the engine run leaves behind: the value
`download_delivery_lists` returns to its caller (the `except Exception`
handler turns a propagating exception into `return False`), whether the body
raised, the `self.no_data_found` attribute the caller inspects, the rounds
executed, the processed order ids in order, and the teardown counters. -/
structure RunOut where
  result : Bool
  bodyRaised : Bool
  noDataFlag : Bool
  rounds : Nat
  processed : List String
  cleanupCalls : Nat
  quitCalls : Nat
  driverLive : Bool
  deriving DecidableEq, Repr

/-- `download_delivery_lists`: run the body under `try`, convert an escaping
exception to `return False` (`except Exception`), and run `cleanup` exactly
once in `finally` — Python guarantees the `finally` suite on every exit path
of the `try` statement, including returns and exceptions. -/
def downloadDeliveryLists (env : Env) : RunOut :=
  let b := runBody env
  let s0 : Sess := ⟨driverAssigned env.setup, 0, 0⟩
  let s1 := cleanup s0
  { result := match b.1 with | BodyExit.ret r => r | BodyExit.exn => false
    bodyRaised := match b.1 with | BodyExit.exn => true | _ => false
    noDataFlag := b.2.flag
    rounds := b.2.rounds
    processed := b.2.processed
    cleanupCalls := s1.cleanupCalls
    quitCalls := s1.quitCalls
    driverLive := s1.driver }

/-- What the caller of `download_delivery_lists` can observe
(src/main.py: the returned boolean and the `scraper.no_data_found`
attribute). -/
def callerView (o : RunOut) : Bool × Bool :=
  (o.result, o.noDataFlag)

/-! Concrete run environments used as witnesses and counterexamples. -/

/-- Production mode, every phase succeeds, the sentinel never appears:
the run can only stop at the round limit. -/
def envProdAllOk : Env :=
  ⟨Res.val true, Res.val true, Res.val true, Res.val true,
   fun _ => Res.val true, fun _ => none, Res.val true,
   fun _ => Res.val [], fun _ _ => Res.val true, fun _ => Res.val true, false⟩

/-- Production mode, the listing search of round 1 fails (a phase failure). -/
def envProdSearchFail : Env :=
  ⟨Res.val true, Res.val true, Res.val true, Res.val true,
   fun r => if r = 1 then Res.val false else Res.val true, fun _ => none,
   Res.val true, fun _ => Res.val [], fun _ _ => Res.val true,
   fun _ => Res.val true, false⟩

/-- Production mode, every phase succeeds and the round limit is reached
(same behaviour as `envProdAllOk`; separate run for comparison). -/
def envProdRoundLimit : Env :=
  ⟨Res.val true, Res.val true, Res.val true, Res.val true,
   fun _ => Res.val true, fun _ => none, Res.val true,
   fun _ => Res.val [], fun _ _ => Res.val true, fun _ => Res.val true, false⟩

/-- Production mode, the no-data sentinel is shown already on round 1:
zero orders are handled. -/
def envProdNoDataRound1 : Env :=
  ⟨Res.val true, Res.val true, Res.val true, Res.val true,
   fun _ => Res.val true, fun _ => some noDataPhrase, Res.val true,
   fun _ => Res.val [], fun _ _ => Res.val true, fun _ => Res.val true, false⟩

/-- Production mode, two orders are processed in rounds 1 and 2 and the
sentinel appears on round 3: an ordinary successful run. -/
def envProdSuccessRound3 : Env :=
  ⟨Res.val true, Res.val true, Res.val true, Res.val true,
   fun _ => Res.val true, fun r => if r = 3 then some noDataPhrase else none,
   Res.val true, fun _ => Res.val [], fun _ _ => Res.val true,
   fun _ => Res.val true, false⟩

/-- Test mode over a listing page that always shows the same 9 order rows. -/
def envTestNineRows : Env :=
  ⟨Res.val true, Res.val true, Res.val true, Res.val true,
   fun _ => Res.val true, fun _ => none, Res.val true,
   fun _ => Res.val (getAvailableOrderLinks (realPage 9)),
   fun _ _ => Res.val true, fun _ => Res.val true, true⟩

/-- Test mode over a listing page that always shows the same 3 order rows. -/
def envTestThreeRows : Env :=
  ⟨Res.val true, Res.val true, Res.val true, Res.val true,
   fun _ => Res.val true, fun _ => none, Res.val true,
   fun _ => Res.val (getAvailableOrderLinks (realPage 3)),
   fun _ _ => Res.val true, fun _ => Res.val true, true⟩

/-- A run whose setup succeeds and whose first listing search fails, used to
exercise the teardown path. -/
def envTeardown : Env :=
  ⟨Res.val true, Res.val true, Res.val true, Res.val true,
   fun _ => Res.val false, fun _ => none, Res.val true,
   fun _ => Res.val [], fun _ _ => Res.val true, fun _ => Res.val true, false⟩

end SMCL

namespace SMCL

theorem findFirstAux_allFail (resolve : String → Option Nat) :
    ∀ (ys : List String) (l : String) (lastErr : Option String),
      (∀ xp ∈ ys ++ [l], resolve xp = none) →
      (findFirstAux resolve lastErr (ys ++ [l])).1 = FindRes.raised l := by
  intro ys
  induction ys with
  | nil =>
    intro l lastErr h
    have hl : resolve l = none := h l (by simp)
    simp [findFirstAux, hl]
  | cons y ys ih =>
    intro l lastErr h
    have hy : resolve y = none := h y (by simp)
    have hrest : ∀ xp ∈ ys ++ [l], resolve xp = none := by
      intro xp hxp
      exact h xp (by simp_all)
    simp only [List.cons_append, findFirstAux, hy]
    exact ih l (some y) hrest

theorem findFirstAux_firstHit (resolve : String → Option Nat) :
    ∀ (pre : List String) (xp : String) (post : List String) (h : Nat)
      (lastErr : Option String),
      (∀ y ∈ pre, resolve y = none) →
      resolve xp = some h →
      findFirstAux resolve lastErr (pre ++ xp :: post) =
        (FindRes.handle h, pre ++ [xp]) := by
  intro pre
  induction pre with
  | nil =>
    intro xp post h lastErr _ hxp
    simp [findFirstAux, hxp]
  | cons y ys ih =>
    intro xp post h lastErr hpre hxp
    have hy : resolve y = none := hpre y (by simp)
    have hys : ∀ z ∈ ys, resolve z = none := fun z hz => hpre z (by simp [hz])
    simp only [List.cons_append, findFirstAux, hy, List.append_eq]
    rw [ih xp post h (some y) hys hxp]

theorem tryClick_firstHit (resolve : String → Option Nat) :
    ∀ (pre : List String) (xp : String) (post : List String) (h : Nat),
      (∀ y ∈ pre, resolve y = none) →
      resolve xp = some h →
      tryClickWithXpaths resolve (pre ++ xp :: post) = (true, pre ++ [xp]) := by
  intro pre
  induction pre with
  | nil =>
    intro xp post h _ hxp
    simp [tryClickWithXpaths, hxp]
  | cons y ys ih =>
    intro xp post h hpre hxp
    have hy : resolve y = none := hpre y (by simp)
    have hys : ∀ z ∈ ys, resolve z = none := fun z hz => hpre z (by simp [hz])
    simp only [List.cons_append, tryClickWithXpaths, hy, List.append_eq]
    rw [ih xp post h hys hxp]

/-- C4: for every LocatorSpec with at least one working strategy,
`_find_first` returns the handle resolved by the first strategy in spec order
that succeeds; failed strategies before it are skipped without aborting the
search, and the strategies after the first successful one are never tried
(the attempted list is exactly the spec up to and including the winner).
`_try_click_with_xpaths` clicks under the same first-success discipline. -/
theorem C4_locate_first_strategy_wins (resolve : String → Option Nat)
    (pre : List String) (xp : String) (post : List String) (h : Nat)
    (hpre : ∀ y ∈ pre, resolve y = none) (hxp : resolve xp = some h) :
    findFirst resolve (pre ++ xp :: post) = (FindRes.handle h, pre ++ [xp]) ∧
    tryClickWithXpaths resolve (pre ++ xp :: post) = (true, pre ++ [xp]) :=
  ⟨findFirstAux_firstHit resolve pre xp post h none hpre hxp,
   tryClick_firstHit resolve pre xp post h hpre hxp⟩

/-- Witness for C4 at a concrete spec: the second of three strategies is the
first working one; the first is skipped, the third is never tried. -/
theorem C4_locate_first_strategy_wins_witness :
    findFirst (fun s => if s = "//b" then some 7 else none) (["//a"] ++ "//b" :: ["//c"]) =
      (FindRes.handle 7, ["//a", "//b"]) ∧
    tryClickWithXpaths (fun s => if s = "//b" then some 7 else none)
        (["//a"] ++ "//b" :: ["//c"]) = (true, ["//a", "//b"]) :=
  C4_locate_first_strategy_wins (fun s => if s = "//b" then some 7 else none)
    ["//a"] "//b" ["//c"] 7 (by decide) (by decide)

/-- C3, counterexample: at a LocatorSpec with one strategy that never
resolves, `_find_first` does not return the NotFound value (`None`); it
re-raises the strategy's exception (`raise last_error`).  This refutes the
claim that `locate` returns NotFound and does not raise whenever no strategy
resolves. -/
theorem C3_counterexample :
    (findFirst (fun _ => none) ["//a"]).1 = FindRes.raised "//a" ∧
    (findFirst (fun _ => none) ["//a"]).1 ≠ FindRes.nofind := by
  exact ⟨rfl, by decide⟩

/-- C3, amended: when no strategy of the spec resolves within its timeout,
`_find_first` re-raises the exception of the last strategy in the spec
(its callers catch it); the `None` (NotFound) fall-through is returned only
for an empty spec. -/
theorem C3_amended_locate_allfail_raises_last (resolve : String → Option Nat) :
    findFirst resolve [] = (FindRes.nofind, []) ∧
    ∀ (ys : List String) (l : String),
      (∀ xp ∈ ys ++ [l], resolve xp = none) →
      (findFirst resolve (ys ++ [l])).1 = FindRes.raised l :=
  ⟨rfl, fun ys l h => findFirstAux_allFail resolve ys l none h⟩

/-- Witness for C3 (amended) at a concrete two-strategy spec where every
strategy fails: the second (last) strategy's exception is the one re-raised. -/
theorem C3_amended_locate_allfail_raises_last_witness :
    findFirst (fun _ => none) [] = (FindRes.nofind, []) ∧
    (findFirst (fun _ => (none : Option Nat)) (["//a"] ++ ["//b"])).1 =
      FindRes.raised "//b" :=
  ⟨(C3_amended_locate_allfail_raises_last (fun _ => none)).1,
   (C3_amended_locate_allfail_raises_last (fun _ => none)).2 ["//a"] "//b" (by decide)⟩

theorem waitLoop_eq_simpleLoop (before : List String) :
    ∀ (polls : List Poll) (last : Option (String × Nat)),
      waitLoop before last polls = simpleLoop last (obsSeq before polls) := by
  intro polls
  induction polls with
  | nil =>
    intro last
    cases last with
    | none => rfl
    | some q => rfl
  | cons poll rest ih =>
    intro last
    cases hobs : obsOf before poll with
    | none =>
      simp only [waitLoop, hobs, obsSeq, List.filterMap_cons]
      exact ih last
    | some o =>
      obtain ⟨n, s⟩ := o
      cases last with
      | none =>
        simp only [waitLoop, hobs, obsSeq, List.filterMap_cons, simpleLoop]
        exact ih (some (n, s))
      | some q =>
        obtain ⟨lp, ls⟩ := q
        by_cases hc : n = lp ∧ s = ls
        · simp only [waitLoop, hobs, obsSeq, List.filterMap_cons, simpleLoop, if_pos hc]
        · simp only [waitLoop, hobs, obsSeq, List.filterMap_cons, simpleLoop, if_neg hc]
          exact ih (some (n, s))

theorem simpleLoop_some :
    ∀ (obs : List (String × Nat)) (last : Option (String × Nat)) (nm : String),
      simpleLoop last obs = some nm →
      (∃ s, last = some (nm, s) ∧ obs[0]? = some (nm, s)) ∨
      ∃ i s, obs[i]? = some (nm, s) ∧ obs[i + 1]? = some (nm, s) := by
  intro obs
  induction obs with
  | nil =>
    intro last nm h
    cases last with
    | none => simp [simpleLoop] at h
    | some q => obtain ⟨lp, ls⟩ := q; simp [simpleLoop] at h
  | cons o rest ih =>
    intro last nm h
    obtain ⟨n, s⟩ := o
    cases last with
    | none =>
      have h' : simpleLoop (some (n, s)) rest = some nm := h
      rcases ih (some (n, s)) nm h' with ⟨s', hl, hh⟩ | ⟨i, s', h1, h2⟩
      · right
        refine ⟨0, s', ?_, ?_⟩
        · injection hl with hl'
          simp [← hl']
        · simpa using hh
      · right
        exact ⟨i + 1, s', by simpa using h1, by simpa using h2⟩
    | some q =>
      obtain ⟨lp, ls⟩ := q
      by_cases hc : n = lp ∧ s = ls
      · have hn : some n = some nm := by simpa [simpleLoop, hc] using h
        injection hn with hn'
        left
        exact ⟨ls, by simp [← hn', hc.1], by simp [← hn', hc.2]⟩
      · have h' : simpleLoop (some (n, s)) rest = some nm := by
          simpa [simpleLoop, hc] using h
        rcases ih (some (n, s)) nm h' with ⟨s', hl, hh⟩ | ⟨i, s', h1, h2⟩
        · right
          refine ⟨0, s', ?_, ?_⟩
          · injection hl with hl'
            simp [← hl']
          · simpa using hh
        · right
          exact ⟨i + 1, s', by simpa using h1, by simpa using h2⟩

theorem pickNewest_mem (c : FileObs) (cs : List FileObs) : pickNewest c cs ∈ c :: cs := by
  have key : ∀ (l : List FileObs) (acc : FileObs),
      l.foldl (fun acc f => if acc.mtime < f.mtime then f else acc) acc = acc ∨
      l.foldl (fun acc f => if acc.mtime < f.mtime then f else acc) acc ∈ l := by
    intro l
    induction l with
    | nil => intro acc; left; rfl
    | cons x xs ih =>
      intro acc
      rw [List.foldl_cons]
      rcases ih (if acc.mtime < x.mtime then x else acc) with h | h
      · rw [h]
        by_cases hx : acc.mtime < x.mtime
        · right; simp [hx]
        · left; simp [hx]
      · right; exact List.mem_cons_of_mem x h
  rcases key cs c with h | h
  · rw [pickNewest, h]; exact List.mem_cons_self c cs
  · exact List.mem_cons_of_mem c h

theorem obsSeq_mem_spec (before : List String) (polls : List Poll) (nm : String) (s : Nat)
    (h : (nm, s) ∈ obsSeq before polls) :
    isOrderCsv nm = true ∧ nm ∉ before := by
  obtain ⟨poll, _, hobs⟩ := List.mem_filterMap.mp h
  unfold obsOf at hobs
  cases hcand : candidatesOf before poll with
  | nil => rw [hcand] at hobs; simp at hobs
  | cons c cs =>
    rw [hcand] at hobs
    have hname : (pickNewest c cs).name = nm := by
      have := Option.some.inj hobs
      exact congrArg Prod.fst this
    have hmem : pickNewest c cs ∈ candidatesOf before poll := by
      rw [hcand]; exact pickNewest_mem c cs
    have hfil := List.mem_filter.mp hmem
    have hp := hfil.2
    rw [Bool.and_eq_true] at hp
    constructor
    · rw [← hname]; exact hp.1
    · intro hin
      have : decide ((pickNewest c cs).name ∈ before) = true := by
        rw [hname]; exact decide_eq_true hin
      rw [this] at hp
      exact Bool.false_ne_true hp.2

/-- C2 (amended): when `_wait_for_new_csv` returns a path, that file matches
the `受注伝票_*.csv` pattern, its name was not in the `_snapshot_existing_csv`
snapshot taken before the download was triggered (snapshot files are never
candidates), and the same file was the newest candidate with the same
observed byte-size — possibly zero, the code has no non-zero check — at two
consecutive candidate-bearing polls; in particular it never returns a file
whose size changed between its last two observations. -/
theorem C2_await_stable_equal_sizes (p0 : Poll) (polls : List Poll) (nm : String)
    (h : waitForNewCsv (snapshotExistingCsv p0) polls = some nm) :
    isOrderCsv nm = true ∧ nm ∉ snapshotExistingCsv p0 ∧
    ∃ i s, (obsSeq (snapshotExistingCsv p0) polls)[i]? = some (nm, s) ∧
      (obsSeq (snapshotExistingCsv p0) polls)[i + 1]? = some (nm, s) := by
  rw [waitForNewCsv, waitLoop_eq_simpleLoop] at h
  rcases simpleLoop_some _ none nm h with ⟨s, hl, _⟩ | ⟨i, s, h1, h2⟩
  · exact absurd hl (by simp)
  · have hmem : (nm, s) ∈ obsSeq (snapshotExistingCsv p0) polls := by
      have := List.getElem?_eq_some.mp h1
      obtain ⟨hi, hv⟩ := this
      rw [← hv]
      exact List.getElem_mem hi
    have hspec := obsSeq_mem_spec _ polls nm s hmem
    exact ⟨hspec.1, hspec.2, i, s, h1, h2⟩

/-- Witness for C2 at a concrete trace: one pre-existing `old.csv` in the
snapshot, then a new `受注伝票_2.csv` observed with the same size at two
consecutive polls. -/
theorem C2_await_stable_equal_sizes_witness :
    isOrderCsv "受注伝票_2.csv" = true ∧
    "受注伝票_2.csv" ∉ snapshotExistingCsv [⟨"old.csv", 0, 9⟩] ∧
    ∃ i s,
      (obsSeq (snapshotExistingCsv [⟨"old.csv", 0, 9⟩])
        [[⟨"old.csv", 0, 9⟩, ⟨"受注伝票_2.csv", 3, 17⟩],
         [⟨"old.csv", 0, 9⟩, ⟨"受注伝票_2.csv", 3, 17⟩]])[i]? = some ("受注伝票_2.csv", s) ∧
      (obsSeq (snapshotExistingCsv [⟨"old.csv", 0, 9⟩])
        [[⟨"old.csv", 0, 9⟩, ⟨"受注伝票_2.csv", 3, 17⟩],
         [⟨"old.csv", 0, 9⟩, ⟨"受注伝票_2.csv", 3, 17⟩]])[i + 1]? = some ("受注伝票_2.csv", s) :=
  C2_await_stable_equal_sizes [⟨"old.csv", 0, 9⟩]
    [[⟨"old.csv", 0, 9⟩, ⟨"受注伝票_2.csv", 3, 17⟩],
     [⟨"old.csv", 0, 9⟩, ⟨"受注伝票_2.csv", 3, 17⟩]]
    "受注伝票_2.csv" (by decide)

/-- C2, counterexample: a candidate file observed with size ZERO at two
consecutive polls is returned by `_wait_for_new_csv` — the code compares the
two sizes for equality but never requires them to be non-zero, refuting the
claim's "equal, non-zero byte-size" condition. -/
theorem C2_counterexample_zero_size :
    waitForNewCsv [] [[⟨"受注伝票_1.csv", 5, 0⟩], [⟨"受注伝票_1.csv", 5, 0⟩]] =
      some "受注伝票_1.csv" := by decide

/-- C5 (code bug): evaluating the relocation step at a state where the
destination subdirectory already holds a file of the same name.  The stable
artifact `dl/受注伝票_1.csv` (content `NEW`) is moved to
`dl/unconfirmed/受注伝票_1.csv` where a file with content `OLD` already
exists: `Path.replace` silently and unconditionally replaces the existing
file — it does not raise on a name collision, so the `except` branch whose
comment says the existing file is kept (`同名がある場合はそのまま`) is never
reached, and the pre-existing content `OLD` is lost. -/
theorem C5_collision_overwrites_existing :
    fsLookup [("dl/受注伝票_1.csv", "NEW"), ("dl/unconfirmed/受注伝票_1.csv", "OLD")]
        "dl/unconfirmed/受注伝票_1.csv" = some "OLD" ∧
    moveArtifact [("dl/受注伝票_1.csv", "NEW"), ("dl/unconfirmed/受注伝票_1.csv", "OLD")]
        "dl" "unconfirmed" "受注伝票_1.csv" = [("dl/unconfirmed/受注伝票_1.csv", "NEW")] ∧
    fsLookup (moveArtifact
        [("dl/受注伝票_1.csv", "NEW"), ("dl/unconfirmed/受注伝票_1.csv", "OLD")]
        "dl" "unconfirmed" "受注伝票_1.csv") "dl/unconfirmed/受注伝票_1.csv" ≠ some "OLD" ∧
    pathReplace [("dl/受注伝票_1.csv", "NEW"), ("dl/unconfirmed/受注伝票_1.csv", "OLD")]
        "dl/受注伝票_1.csv" "dl/unconfirmed/受注伝票_1.csv" ≠ none := by
  refine ⟨by decide, by decide, by decide, by decide⟩

theorem contains_dropWhile_of_contains (w : Char → Bool) (p : List Char)
    (hne : p ≠ []) (hw : ∀ c ∈ p, w c = false) :
    ∀ l : List Char, p <:+: l → p <:+: l.dropWhile w := by
  intro l h
  obtain ⟨s, t, rfl⟩ := h
  rw [List.append_assoc, List.dropWhile_append]
  by_cases hs : (s.dropWhile w).isEmpty
  · rw [if_pos hs]
    cases p with
    | nil => exact absurd rfl hne
    | cons c p' =>
      have hc : w c = false := hw c (by simp)
      rw [List.cons_append, List.dropWhile_cons, hc]
      simp only [Bool.false_eq_true, if_false]
      exact ⟨[], t, by simp⟩
  · rw [if_neg hs]
    exact ⟨s.dropWhile w, t, by rw [List.append_assoc]⟩

theorem contains_stripChars_of_contains (p : List Char)
    (hne : p ≠ []) (hw : ∀ c ∈ p, Char.isWhitespace c = false) (l : List Char)
    (h : p <:+: l) : p <:+: stripChars l := by
  have h1 : p <:+: l.dropWhile Char.isWhitespace :=
    contains_dropWhile_of_contains Char.isWhitespace p hne hw l h
  have h2 : p.reverse <:+: (l.dropWhile Char.isWhitespace).reverse :=
    List.reverse_infix.mpr h1
  have hne' : p.reverse ≠ [] := by simpa using hne
  have hw' : ∀ c ∈ p.reverse, Char.isWhitespace c = false := by
    intro c hc
    exact hw c (List.mem_reverse.mp hc)
  have h3 : p.reverse <:+: ((l.dropWhile Char.isWhitespace).reverse).dropWhile Char.isWhitespace :=
    contains_dropWhile_of_contains Char.isWhitespace p.reverse hne' hw' _ h2
  have h4 := List.reverse_infix.mpr h3
  rw [List.reverse_reverse] at h4
  exact h4

theorem stripChars_contained (l : List Char) : stripChars l <:+: l := by
  have h1 : l.dropWhile Char.isWhitespace <:+ l := List.dropWhile_suffix _
  have h2 : ((l.dropWhile Char.isWhitespace).reverse.dropWhile Char.isWhitespace) <:+
      (l.dropWhile Char.isWhitespace).reverse := List.dropWhile_suffix _
  have h3 : stripChars l <+: l.dropWhile Char.isWhitespace := by
    have := List.reverse_prefix.mpr h2
    rwa [List.reverse_reverse] at this
  exact (h3.isInfix).trans (h1.isInfix)

/-- C9: `check_no_data_message` returns `True` exactly when the message-area
control exists and its text contains the sentinel phrase
「該当するデータがありません」; when the control is absent it returns `False`
(the `NoSuchElementException` is caught, not propagated — the function is
total). -/
theorem C9_no_data_sentinel_iff :
    checkNoDataMessage none = false ∧
    ∀ msg : Option (List Char),
      (checkNoDataMessage msg = true ↔ ∃ t, msg = some t ∧ noDataPhrase <:+: t) := by
  refine ⟨rfl, ?_⟩
  intro msg
  cases msg with
  | none =>
    simp [checkNoDataMessage]
  | some t =>
    simp only [checkNoDataMessage, decide_eq_true_eq]
    constructor
    · intro h
      exact ⟨t, rfl, h.trans (stripChars_contained t)⟩
    · rintro ⟨t', ht', h⟩
      injection ht' with ht'
      subst ht'
      exact contains_stripChars_of_contains noDataPhrase (by decide) (by decide) t h

set_option maxRecDepth 100000 in
theorem getLinks_realPage_bounded :
    ∀ k < 91, getAvailableOrderLinks (realPage k) =
      (List.range' 1 (min k 8)).map gridRowId := by decide

set_option maxRecDepth 100000 in
theorem gridRowId_late_ne_early :
    ∀ j < 91, 9 ≤ j → ∀ i < 9, 1 ≤ i → gridRowId i ≠ gridRowId j := by decide

set_option maxRecDepth 100000 in
theorem gridRowId_ne_linkId10 :
    ∀ j < 91, 1 ≤ j → gridRowId j ≠ linkIdOf 10 := by decide

/-- C10: on every listing page (any row count up to 90), the per-round
enumeration `_get_available_order_links` probes only the id template
`ctl0{i}` for `i = 2..19` and stops at the first missing element; the probed
id for `i = 10` is `...ctl010...`, which is never the id of a real row (row 9
renders as `...ctl10...`), so the returned identifiers are exactly those of
rows 1 through min(k, 8): at most 8, and the identifier of any row beyond the
eighth is never enumerated (hence never processed in any round). -/
theorem C10_at_most_eight_rows_enumerated (k : Nat) (hk : k ≤ 90) :
    getAvailableOrderLinks (realPage k) = (List.range' 1 (min k 8)).map gridRowId ∧
    (getAvailableOrderLinks (realPage k)).length = min k 8 ∧
    (getAvailableOrderLinks (realPage k)).length ≤ 8 ∧
    realPage k (linkIdOf 10) = ProbeRes.missing ∧
    ∀ j, 9 ≤ j → j ≤ k → gridRowId j ∉ getAvailableOrderLinks (realPage k) := by
  have heq := getLinks_realPage_bounded k (by omega)
  have hlen : (getAvailableOrderLinks (realPage k)).length = min k 8 := by
    rw [heq]; simp
  refine ⟨heq, hlen, ?_, ?_, ?_⟩
  · rw [hlen]; exact Nat.min_le_right k 8
  · unfold realPage
    rw [if_neg]
    intro hany
    rw [List.any_eq_true] at hany
    obtain ⟨j, hj, hbeq⟩ := hany
    have hjr := List.mem_range'_1.mp hj
    exact gridRowId_ne_linkId10 j (by omega) (by omega) (by simpa using hbeq)
  · intro j h9 hjk hmem
    rw [heq] at hmem
    obtain ⟨i, hi, hgi⟩ := List.mem_map.mp hmem
    have hir := List.mem_range'_1.mp hi
    have hm : min k 8 ≤ 8 := Nat.min_le_right k 8
    exact gridRowId_late_ne_early j (by omega) h9 i (by omega) (by omega) hgi

/-- Witness for C10 at a 12-row listing page: the enumeration returns the 8
identifiers of rows 1-8, and the identifier of row 9 is not among them. -/
theorem C10_at_most_eight_rows_enumerated_witness :
    (getAvailableOrderLinks (realPage 12)).length = 8 ∧
    gridRowId 9 ∉ getAvailableOrderLinks (realPage 12) :=
  ⟨((C10_at_most_eight_rows_enumerated 12 (by omega)).2.1).trans (by decide),
   (C10_at_most_eight_rows_enumerated 12 (by omega)).2.2.2.2 9 (by omega) (by omega)⟩

@[simp] theorem checkNoDataMessage_none : checkNoDataMessage none = false := rfl

theorem loop_prod_allSuccess (env : Env)
    (ht : env.testMode = false)
    (hs : ∀ r, env.search r = Res.val true)
    (hm : ∀ r, env.msg r = none)
    (hc : env.csvDownload = Res.val true)
    (hp : ∀ r, env.process r none = Res.val true) :
    ∀ (fuel attempt : Nat) (processed : List String) (cnt : Nat),
      loop env fuel attempt processed cnt false =
        ⟨LoopExit.exhausted, attempt + fuel, processed, false⟩ := by
  intro fuel
  induction fuel with
  | zero =>
    intro attempt processed cnt
    simp [loop]
  | succ n ih =>
    intro attempt processed cnt
    simp only [loop, hs, hm, hc, ht, hp, checkNoDataMessage_none, ite_self,
      Bool.false_eq_true, if_false]
    rw [ih (attempt + 1) processed cnt]
    have : attempt + 1 + n = attempt + (n + 1) := by omega
    rw [this]

/-- C6: in confirmation-enabled (production) runs where the no-data sentinel
never appears and every phase keeps succeeding, the processing loop executes
exactly `max_attempts = 50` rounds — the count is re-checked before each new
round — and then `download_delivery_lists` returns failure (`False`) instead
of looping further. -/
theorem C6_round_limit_after_50 (env : Env)
    (h1 : env.setup = Res.val true) (h2 : env.access = Res.val true)
    (h3 : env.login = Res.val true) (h4 : env.selectUser = Res.val true)
    (ht : env.testMode = false)
    (hs : ∀ r, env.search r = Res.val true)
    (hm : ∀ r, env.msg r = none)
    (hc : env.csvDownload = Res.val true)
    (hp : ∀ r, env.process r none = Res.val true) :
    (downloadDeliveryLists env).rounds = maxAttempts ∧
    (downloadDeliveryLists env).result = false := by
  have hloop := loop_prod_allSuccess env ht hs hm hc hp maxAttempts 0 [] 0
  simp only [downloadDeliveryLists, runBody, h1, h2, h3, h4, hloop]
  exact ⟨Nat.zero_add maxAttempts, trivial⟩

/-- Witness for C6 at a concrete all-succeeding production environment. -/
theorem C6_round_limit_after_50_witness :
    (downloadDeliveryLists envProdAllOk).rounds = maxAttempts ∧
    (downloadDeliveryLists envProdAllOk).result = false :=
  C6_round_limit_after_50 envProdAllOk rfl rfl rfl rfl rfl
    (fun _ => rfl) (fun _ => rfl) rfl (fun _ => rfl)

/-- C8: `cleanup` runs exactly once per `download_delivery_lists` call on
every exit path (the Python `finally` suite); when `setup_driver` succeeded,
the driver is quit exactly once; the driver handle is released (`None`) at
the end; `cleanup` itself is total — teardown errors are caught and logged —
and a repeated call is a no-op (no further quit attempt). -/
theorem C8_cleanup_exactly_once (env : Env) :
    (downloadDeliveryLists env).cleanupCalls = 1 ∧
    (env.setup = Res.val true → (downloadDeliveryLists env).quitCalls = 1) ∧
    (downloadDeliveryLists env).driverLive = false ∧
    ∀ s : Sess, (cleanup s).driver = false ∧
      (cleanup (cleanup s)).quitCalls = (cleanup s).quitCalls := by
  refine ⟨?_, ?_, ?_, ?_⟩
  · simp only [downloadDeliveryLists, cleanup]
    split <;> rfl
  · intro h
    simp only [downloadDeliveryLists, cleanup, h, driverAssigned]
    rfl
  · cases hset : env.setup with
    | exn => simp [downloadDeliveryLists, cleanup, driverAssigned, hset]
    | val b => cases b <;> simp [downloadDeliveryLists, cleanup, driverAssigned, hset]
  · intro s
    constructor
    · simp only [cleanup]
      split
      · rfl
      · simp_all
    · simp only [cleanup]
      split <;> rfl

/-- Witness for C8 at a concrete run whose setup succeeds and whose listing
phase fails: teardown still happens exactly once. -/
theorem C8_cleanup_exactly_once_witness :
    (downloadDeliveryLists envTeardown).cleanupCalls = 1 ∧
    (downloadDeliveryLists envTeardown).quitCalls = 1 ∧
    (downloadDeliveryLists envTeardown).driverLive = false :=
  ⟨(C8_cleanup_exactly_once envTeardown).1,
   (C8_cleanup_exactly_once envTeardown).2.1 rfl,
   (C8_cleanup_exactly_once envTeardown).2.2.1⟩

/-- C7, counterexample: the run result handed to the caller is only the
returned boolean together with `self.no_data_found`.  A run whose listing
phase fails in round 1 and a run that hits the 50-round limit leave identical
caller-visible results — the claimed PhaseFailure/Aborted distinction does
not exist — and a run that sees the sentinel immediately (zero orders) and a
production run that processes orders for two rounds before the sentinel
appears also leave identical caller-visible results — the claimed
NoDataFound/Success distinction does not exist either. -/
theorem C7_counterexample :
    callerView (downloadDeliveryLists envProdSearchFail) =
      callerView (downloadDeliveryLists envProdRoundLimit) ∧
    (downloadDeliveryLists envProdSearchFail).rounds = 1 ∧
    (downloadDeliveryLists envProdRoundLimit).rounds = maxAttempts ∧
    callerView (downloadDeliveryLists envProdNoDataRound1) =
      callerView (downloadDeliveryLists envProdSuccessRound3) ∧
    (downloadDeliveryLists envProdNoDataRound1).rounds = 1 ∧
    (downloadDeliveryLists envProdSuccessRound3).rounds = 3 := by
  refine ⟨by decide, by decide, by decide, by decide, by decide, by decide⟩

/-- C7 (amended): the engine reports a two-valued outcome plus the
`no_data_found` flag: a sentinel stop returns `True` with the flag set, and
every failure returns `False`; but the round-limit abort and a phase failure
coincide (both `False`, flag untouched), as do — in production mode — an
immediate no-data stop and an ordinary success that ends on the sentinel
after processing orders (both `True`, flag set). -/
theorem C7_amended_binary_outcome (env : Env)
    (h1 : env.setup = Res.val true) (h2 : env.access = Res.val true)
    (h3 : env.login = Res.val true) (h4 : env.selectUser = Res.val true)
    (ht : env.testMode = false) :
    (env.search 1 = Res.val true → checkNoDataMessage (env.msg 1) = true →
      callerView (downloadDeliveryLists env) = (true, true)) ∧
    (env.search 1 = Res.val false →
      callerView (downloadDeliveryLists env) = (false, false)) ∧
    ((∀ r, env.search r = Res.val true) → (∀ r, env.msg r = none) →
      env.csvDownload = Res.val true → (∀ r, env.process r none = Res.val true) →
      callerView (downloadDeliveryLists env) = (false, false)) := by
  refine ⟨?_, ?_, ?_⟩
  · intro hs1 hsent
    have hloop : loop env maxAttempts 0 [] 0 false = ⟨LoopExit.retTrue, 1, [], true⟩ := by
      show loop env (49 + 1) 0 [] 0 false = _
      rw [loop]
      simp only [Nat.zero_add, hs1, hsent, if_true]
    simp only [downloadDeliveryLists, runBody, h1, h2, h3, h4, hloop, callerView]
  · intro hs1
    have hloop : loop env maxAttempts 0 [] 0 false = ⟨LoopExit.broke, 1, [], false⟩ := by
      show loop env (49 + 1) 0 [] 0 false = _
      rw [loop]
      simp only [Nat.zero_add, hs1]
    simp only [downloadDeliveryLists, runBody, h1, h2, h3, h4, hloop, callerView]
  · intro hs hm hc hp
    have hloop := loop_prod_allSuccess env ht hs hm hc hp maxAttempts 0 [] 0
    simp only [downloadDeliveryLists, runBody, h1, h2, h3, h4, hloop, callerView]

theorem find?_first_unprocessed (l : String) (B : List String) (A : List String)
    (hnd : (A ++ l :: B).Nodup) :
    (A ++ l :: B).find? (fun x => !(decide (x ∈ A))) = some l := by
  have hdisj : A.Disjoint (l :: B) := (List.nodup_append.mp hnd).2.2
  have hlA : l ∉ A := fun hla => hdisj hla (List.mem_cons_self l B)
  rw [List.find?_eq_some]
  refine ⟨by simp [hlA], A, B, rfl, ?_⟩
  intro a ha
  simp [ha]

theorem loop_test_stall (env : Env) (L : List String)
    (ht : env.testMode = true)
    (hs : ∀ r, env.search r = Res.val true)
    (hm : ∀ r, env.msg r = none)
    (hc : env.csvDownload = Res.val true)
    (hl : ∀ r, env.links r = Res.val L)
    (hLne : L ≠ []) :
    ∀ (fuel attempt cnt : Nat) (processed : List String),
      (∀ x ∈ L, x ∈ processed) → processed.length ≤ 9 → cnt ≤ 2 →
      3 - cnt ≤ fuel →
      loop env fuel attempt processed cnt false =
        ⟨LoopExit.retTrue, attempt + (3 - cnt), processed, false⟩ := by
  intro fuel
  induction fuel with
  | zero =>
    intro attempt cnt processed _ _ hcnt hfuel
    omega
  | succ n ih =>
    intro attempt cnt processed hsub hplen hcnt hfuel
    have hie : L.isEmpty = false := by
      cases L with
      | nil => exact absurd rfl hLne
      | cons x xs => rfl
    have hfind : L.find? (fun x => !(decide (x ∈ processed))) = none := by
      rw [List.find?_eq_none]
      intro x hx
      simp [hsub x hx]
    rw [loop]
    simp only [hs, hm, hc, ht, hl, checkNoDataMessage_none, ite_self,
      Bool.false_eq_true, if_false, if_true, hie, hfind]
    by_cases h3 : 3 ≤ cnt + 1
    · rw [if_pos h3]
      have : 3 - cnt = 1 := by omega
      rw [this]
    · rw [if_neg h3, if_neg (by omega)]
      rw [ih (attempt + 1) (cnt + 1) processed hsub hplen (by omega) (by omega)]
      have : attempt + 1 + (3 - (cnt + 1)) = attempt + (3 - cnt) := by omega
      rw [this]

theorem loop_test_process (env : Env)
    (ht : env.testMode = true)
    (hs : ∀ r, env.search r = Res.val true)
    (hm : ∀ r, env.msg r = none)
    (hc : env.csvDownload = Res.val true)
    (hp : ∀ r l, env.process r (some l) = Res.val true)
    (hb : ∀ r, env.navBack r = Res.val true) :
    ∀ (B A : List String) (fuel attempt : Nat),
      (∀ r, env.links r = Res.val (A ++ B)) →
      (A ++ B).Nodup → (A ++ B).length ≤ 9 → A ++ B ≠ [] →
      B.length + 3 ≤ fuel →
      loop env fuel attempt A 0 false =
        ⟨LoopExit.retTrue, attempt + B.length + 3, A ++ B, false⟩ := by
  intro B
  induction B with
  | nil =>
    intro A fuel attempt hl hnd hlen hne hfuel
    have := loop_test_stall env (A ++ []) ht hs hm hc hl hne fuel attempt 0 A
      (by simp) (by simpa using hlen) (by omega) (by omega)
    simpa using this
  | cons l B' ih =>
    intro A fuel attempt hl hnd hlen hne hfuel
    cases fuel with
    | zero => omega
    | succ n =>
      have hie : (A ++ l :: B').isEmpty = false := by
        cases A with
        | nil => rfl
        | cons a t => rfl
      have hfind := find?_first_unprocessed l B' A hnd
      have hcap : ¬ 10 ≤ (A ++ [l]).length := by
        rw [List.length_append] at *
        simp at hlen ⊢
        omega
      rw [loop]
      simp only [hs, hm, hc, ht, hl, hp, hb, checkNoDataMessage_none, ite_self,
        Bool.false_eq_true, if_false, if_true, hie, hfind]
      rw [if_neg hcap]
      have hl' : ∀ r, env.links r = Res.val ((A ++ [l]) ++ B') := by
        intro r
        rw [hl r, List.append_assoc]
        rfl
      have hnd' : ((A ++ [l]) ++ B').Nodup := by
        rw [List.append_assoc]
        simpa using hnd
      have hlen' : ((A ++ [l]) ++ B').length ≤ 9 := by
        rw [List.append_assoc]
        simpa using hlen
      have hne' : (A ++ [l]) ++ B' ≠ [] := by
        simp
      rw [ih (A ++ [l]) n (attempt + 1) hl' hnd' hlen' hne' (by simp at hfuel ⊢; omega)]
      have harith : attempt + 1 + B'.length + 3 = attempt + (l :: B').length + 3 := by
        simp
        omega
      rw [harith, List.append_assoc]
      rfl

set_option maxRecDepth 10000 in
theorem rowIds_nodup : ∀ k < 9, ((List.range' 1 k).map gridRowId).Nodup := by decide

/-- C1 (amended): in test mode (confirmation disabled), for a listing page
that always shows the same `K` order rows with `1 ≤ K ≤ 8` — the enumeration
of `_get_available_order_links` can surface at most the first 8 rows, see
C10 — and with every phase succeeding, the engine processes each of the `K`
row identifiers exactly once (one new identifier per round, in listing order,
identifiers already in `processed_orders` skipped), then observes 3
consecutive rounds with no new identifier and returns success after exactly
`K + 3` rounds, well below the 50-round limit. -/
theorem C1_test_mode_processes_each_once (K : Nat) (hK1 : 1 ≤ K) (hK8 : K ≤ 8)
    (env : Env)
    (h1 : env.setup = Res.val true) (h2 : env.access = Res.val true)
    (h3 : env.login = Res.val true) (h4 : env.selectUser = Res.val true)
    (ht : env.testMode = true)
    (hs : ∀ r, env.search r = Res.val true)
    (hm : ∀ r, env.msg r = none)
    (hc : env.csvDownload = Res.val true)
    (hl : ∀ r, env.links r = Res.val (getAvailableOrderLinks (realPage K)))
    (hp : ∀ r l, env.process r (some l) = Res.val true)
    (hb : ∀ r, env.navBack r = Res.val true) :
    (downloadDeliveryLists env).result = true ∧
    (downloadDeliveryLists env).processed = (List.range' 1 K).map gridRowId ∧
    (downloadDeliveryLists env).rounds = K + 3 ∧
    (downloadDeliveryLists env).rounds ≤ maxAttempts := by
  have hmin : min K 8 = K := Nat.min_eq_left hK8
  have hLeq : getAvailableOrderLinks (realPage K) = (List.range' 1 K).map gridRowId := by
    have h := getLinks_realPage_bounded K (by omega)
    rwa [hmin] at h
  have hnd : ((List.range' 1 K).map gridRowId).Nodup := rowIds_nodup K (by omega)
  have hlen : ((List.range' 1 K).map gridRowId).length = K := by simp
  have hne : (List.range' 1 K).map gridRowId ≠ [] := by
    intro h
    rw [h] at hlen
    simp at hlen
    omega
  have hl' : ∀ r, env.links r = Res.val ([] ++ (List.range' 1 K).map gridRowId) := by
    intro r
    rw [hl r, hLeq]
    rfl
  have hloop := loop_test_process env ht hs hm hc hp hb
    ((List.range' 1 K).map gridRowId) [] maxAttempts 0 hl'
    (by simpa using hnd) (by rw [List.nil_append, hlen]; omega)
    (by simpa using hne) (by rw [hlen]; simp [maxAttempts]; omega)
  rw [List.nil_append] at hloop
  rw [hlen] at hloop
  simp only [downloadDeliveryLists, runBody, h1, h2, h3, h4, hloop]
  refine ⟨trivial, trivial, by omega, by simp only [maxAttempts]; omega⟩

/-- C1, counterexample: a listing page that always shows the same 9 order
rows, test mode, every phase succeeding.  Row 9 exists on the page
(`realPage 9` resolves its id), yet the run ends in success having processed
only 8 identifiers, and row 9's identifier is never processed — so the engine
does not process "each of the K row identifiers exactly once" for K = 9. -/
theorem C1_counterexample_nine_rows :
    realPage 9 (gridRowId 9) = ProbeRes.found true true ∧
    (downloadDeliveryLists envTestNineRows).result = true ∧
    (downloadDeliveryLists envTestNineRows).processed.length = 8 ∧
    gridRowId 9 ∉ (downloadDeliveryLists envTestNineRows).processed := by
  refine ⟨by decide, by decide, by decide, by decide⟩

/-- Witness for C1 (amended) at a 3-row listing in test mode: the three row
identifiers are processed once each and the run succeeds after 6 rounds. -/
theorem C1_test_mode_processes_each_once_witness :
    (downloadDeliveryLists envTestThreeRows).result = true ∧
    (downloadDeliveryLists envTestThreeRows).processed = (List.range' 1 3).map gridRowId ∧
    (downloadDeliveryLists envTestThreeRows).rounds = 3 + 3 ∧
    (downloadDeliveryLists envTestThreeRows).rounds ≤ maxAttempts :=
  C1_test_mode_processes_each_once 3 (by omega) (by omega) envTestThreeRows
    rfl rfl rfl rfl rfl (fun _ => rfl) (fun _ => rfl) rfl (fun _ => rfl)
    (fun _ _ => rfl) (fun _ => rfl)

/-- Witness for C7 (amended) at concrete runs: a sentinel stop yields
`(True, flag set)`, a phase failure yields `(False, flag clear)`. -/
theorem C7_amended_binary_outcome_witness :
    callerView (downloadDeliveryLists envProdNoDataRound1) = (true, true) ∧
    callerView (downloadDeliveryLists envProdSearchFail) = (false, false) :=
  ⟨(C7_amended_binary_outcome envProdNoDataRound1 rfl rfl rfl rfl rfl).1 rfl (by decide),
   (C7_amended_binary_outcome envProdSearchFail rfl rfl rfl rfl rfl).2.1 (by decide)⟩

end SMCL
